import Mathlib

/-!
# Verification of the `profile` package (github.com/mmcloughlin/profile)

Shallow embedding of the repository's Go sources into Lean 4.

The embedding follows the current revision of the package: `profile.go`
(session object) together with the methods file (`src/unnamed/part_004`,
the `methods.go` revision whose `method` interface matches `profile.go`).
The older historical revision (`method.go` / `runner.go`) is embedded
separately where a claim is specifically about it.

External collaborators (the OS file system, the Go runtime's profiling
subsystem, and `runtime/pprof` / `runtime/trace`) are modelled by an
`Oracle` of success/failure outcomes plus a `Runtime` state recording the
runtime-global sampling knobs, the set of created and open files, and an
ordered event trace.  The Go standard `flag` package is modelled by the
subset of its documented parsing behaviour that the package exercises:
tokens `-k=v`, `-k v`, the terminators `-` and `--`, unknown-flag and
missing-value errors.  `flag.StringVar` / `flag.IntVar` assign the declared
default to the bound field at registration time, as the real library does.

Concurrency (the interrupt-watcher goroutine installed by `Profile.Start`)
is not modelled; it does not affect the sequential behaviour verified here.
-/

namespace GoProfile

/-- The seven concrete method variants of `methods.go` (part_004).  Each
constructor carries exactly the fields of the corresponding Go struct:
`cpu{filename, f}`, `mem{filename, rate, prevrate}`,
`lookup{name, long, filename}`, `block{filename, rate}`,
`mutex{filename, rate}`, `tracer{filename, f}`.  The `io.WriteCloser`
handle `f` is modelled as the name of the open file. -/
inductive Method where
  | cpu (filename : String) (f : Option String)
  | mem (filename : String) (rate : Int) (prevrate : Int)
  | lookup (name long filename : String)
  | block (filename : String) (rate : Int)
  | mutex (filename : String) (rate : Int)
  | tracer (filename : String) (f : Option String)
deriving DecidableEq, Repr

/-- `Name()` of each variant (methods.go). -/
def Method.nameOf : Method → String
  | .cpu _ _ => "cpu"
  | .mem _ _ _ => "mem"
  | .lookup n _ _ => n
  | .block _ _ => "block"
  | .mutex _ _ => "mutex"
  | .tracer _ _ => "trace"

/-- The configured output filename of a method. -/
def Method.filename : Method → String
  | .cpu fn _ => fn
  | .mem fn _ _ => fn
  | .lookup _ _ fn => fn
  | .block fn _ => fn
  | .mutex fn _ => fn
  | .tracer fn _ => fn

/-- The configured sampling rate/fraction of a method (0 where absent). -/
def Method.rateOf : Method → Int
  | .mem _ r _ => r
  | .block _ r => r
  | .mutex _ r => r
  | _ => 0

/-- `Enabled()` of each variant, translated clause by clause from
methods.go: `cpu`, `mem`, `lookup` and `tracer` test only the filename;
`block` and `mutex` additionally require a positive rate. -/
def Method.Enabled : Method → Bool
  | .cpu fn _ => fn != ""
  | .mem fn _ _ => fn != ""
  | .lookup _ _ fn => fn != ""
  | .block fn r => fn != "" && r > 0
  | .mutex fn r => fn != "" && r > 0
  | .tracer fn _ => fn != ""

/-- Configuration identity of a method: category name, filename and rate,
without the transient fields (`f`, `prevrate`) that `Start()` mutates in
place.  Go appends the very same pointer to the running set, so a method's
identity is preserved by starting it; this projection expresses that. -/
def Method.ident (m : Method) : String × String × Int :=
  (m.nameOf, m.filename, m.rateOf)

/-- Events observable on the external runtime/file-system collaborators. -/
inductive Event where
  | gc
  | create (filename : String)
  | write (category filename : String)
  | close (filename : String)
deriving DecidableEq, Repr

/-- State of the external collaborators: the Go runtime's global profiling
knobs, the files created so far, the files currently open, and the ordered
trace of effects. -/
structure Runtime where
  memProfileRate : Int
  blockProfileRate : Int
  mutexProfileFraction : Int
  files : List String
  openFiles : List String
  events : List Event
deriving DecidableEq, Repr

/-- A fresh runtime: Go's default `runtime.MemProfileRate` is 512*1024,
block/mutex profiling disabled, empty working directory. -/
def Runtime.init : Runtime :=
  { memProfileRate := 524288
    blockProfileRate := 0
    mutexProfileFraction := 0
    files := []
    openFiles := []
    events := [] }

/-- Success/failure outcomes of the external operations.  The package
treats these as black boxes, so their outcomes are parameters. -/
structure Oracle where
  createOk : String → Bool
  startCPUProfileOk : Bool
  traceStartOk : Bool
  writeToOk : String → String → Bool

/-- The oracle in which every external operation succeeds (the situation
of the package's tests, which run in a writable temp dir). -/
def Oracle.allOk : Oracle :=
  { createOk := fun _ => true
    startCPUProfileOk := true
    traceStartOk := true
    writeToOk := fun _ _ => true }

/-- `os.Create` succeeding: the file now exists (set semantics for the
directory listing) and is open. -/
def Runtime.createFile (rt : Runtime) (fn : String) : Runtime :=
  { rt with
    files := if fn ∈ rt.files then rt.files else rt.files ++ [fn]
    openFiles := rt.openFiles ++ [fn]
    events := rt.events ++ [.create fn] }

/-- Closing an open file. -/
def Runtime.closeFile (rt : Runtime) (fn : String) : Runtime :=
  { rt with
    openFiles := rt.openFiles.erase fn
    events := rt.events ++ [.close fn] }

def Runtime.addEvent (rt : Runtime) (e : Event) : Runtime :=
  { rt with events := rt.events ++ [e] }

/-- The profile names in the Go runtime's pprof registry (external
collaborator); `pprof.Lookup` returns nil outside this set. -/
def pprofLookupOk (name : String) : Bool :=
  name ∈ ["allocs", "block", "goroutine", "heap", "mutex", "threadcreate"]

/-- `writeprofile(name, filename)` of methods.go (part_004): look the
profile up in the registry, create the output file, write the profile with
the close deferred (the close runs on both the success and failure paths;
a close error is subsumed by an earlier write error). -/
def writeprofile (o : Oracle) (rt : Runtime) (name filename : String) :
    Except String Unit × Runtime :=
  if !pprofLookupOk name then (.error ("unknown profile " ++ name), rt)
  else if !o.createOk filename then (.error ("open " ++ filename ++ ": failed"), rt)
  else
    let rt1 := rt.createFile filename
    if o.writeToOk name filename then
      (.ok (), (rt1.addEvent (.write name filename)).closeFile filename)
    else
      (.error ("write " ++ filename ++ ": failed"), rt1.closeFile filename)

/-- `Start()` of each variant, translated from methods.go (part_004):
`cpu` creates the file and starts CPU sampling, closing the file if the
profiler refuses to start; `mem` snapshots `runtime.MemProfileRate` into
`prevrate` and installs its configured rate only when positive; `lookup`
does nothing; `block`/`mutex` install their rates globally; `tracer`
mirrors `cpu` with the execution tracer. -/
def Method.start (o : Oracle) (rt : Runtime) : Method → Except String Method × Runtime
  | .cpu fn _ =>
    if o.createOk fn then
      let rt1 := rt.createFile fn
      if o.startCPUProfileOk then (.ok (.cpu fn (some fn)), rt1)
      else (.error "cpu profiling already in use", rt1.closeFile fn)
    else (.error ("open " ++ fn ++ ": failed"), rt)
  | .mem fn r _ =>
    if r > 0 then (.ok (.mem fn r rt.memProfileRate), { rt with memProfileRate := r })
    else (.ok (.mem fn r rt.memProfileRate), rt)
  | .lookup n l fn => (.ok (.lookup n l fn), rt)
  | .block fn r => (.ok (.block fn r), { rt with blockProfileRate := r })
  | .mutex fn r => (.ok (.mutex fn r), { rt with mutexProfileFraction := r })
  | .tracer fn _ =>
    if o.createOk fn then
      let rt1 := rt.createFile fn
      if o.traceStartOk then (.ok (.tracer fn (some fn)), rt1)
      else (.error "tracing is already enabled", rt1.closeFile fn)
    else (.error ("open " ++ fn ++ ": failed"), rt)

/-- `Stop()` of each variant, translated from methods.go (part_004):
`cpu`/`tracer` stop sampling and close their handle (a nil handle — stop
without a successful start — is a caller contract violation, modelled as
an error); `mem` forces a GC, serializes "allocs" and restores the saved
rate; `lookup` serializes its category; `block`/`mutex` serialize and then
reset their global knob to 0. -/
def Method.stop (o : Oracle) (rt : Runtime) : Method → Except String Unit × Runtime
  | .cpu _ f =>
    match f with
    | some h => (.ok (), rt.closeFile h)
    | none => (.error "close of nil file", rt)
  | .mem fn _ pr =>
    let rt1 := rt.addEvent .gc
    let (err, rt2) := writeprofile o rt1 "allocs" fn
    (err, { rt2 with memProfileRate := pr })
  | .lookup n _ fn => writeprofile o rt n fn
  | .block fn _ =>
    let (err, rt1) := writeprofile o rt "block" fn
    (err, { rt1 with blockProfileRate := 0 })
  | .mutex fn _ =>
    let (err, rt1) := writeprofile o rt "mutex" fn
    (err, { rt1 with mutexProfileFraction := 0 })
  | .tracer _ f =>
    match f with
    | some h => (.ok (), rt.closeFile h)
    | none => (.error "close of nil file", rt)

/-! ## Flag registration and parsing

`SetFlags` of each variant binds its flags directly to the method's
fields.  Two observable effects are modelled: registration assigns the
declared flag defaults to the bound fields (the behaviour of
`flag.StringVar` / `flag.IntVar`), and a later parse of arguments mutates
the fields of the method owning the matching flag name.  The flag surface
itself is the union, in method order, of each method's declared flag
names. -/

/-- Decimal digits to a number; `none` when empty or non-digit.  This is
the decimal subset of `strconv.ParseInt`, the conversion the `flag`
library applies to integer flag values. -/
def digitsToNat (ds : List Char) : Option Nat :=
  if ds = [] then none
  else if ds.all (fun c => c.isDigit) then
    some (ds.foldl (fun acc c => acc * 10 + (c.toNat - 48)) 0)
  else none

/-- Integer parsing for flag values: optional sign, then decimal digits. -/
def goAtoi (s : String) : Option Int :=
  match s.data with
  | '-' :: ds => (digitsToNat ds).map (fun n => -(n : Int))
  | '+' :: ds => (digitsToNat ds).map (fun n => (n : Int))
  | ds => (digitsToNat ds).map (fun n => (n : Int))

/-- The field resets performed by `SetFlags` of each variant
(methods.go): every filename flag has default `""`, `memprofilerate` has
default 0, `blockprofilerate` and `mutexprofilefraction` have default 1. -/
def Method.setFlagsReset : Method → Method
  | .cpu _ f => .cpu "" f
  | .mem _ _ pr => .mem "" 0 pr
  | .lookup n l _ => .lookup n l ""
  | .block _ _ => .block "" 1
  | .mutex _ _ => .mutex "" 1
  | .tracer _ f => .tracer "" f

/-- Assign the value of the flag called `name` on the given method.
Returns `none` when the method declares no flag of this name, otherwise
the updated method (or the parse error for a malformed integer value).
Flag names per variant are exactly those declared by `SetFlags` in
methods.go.  Integer flags parse via `String.toInt?`, the decimal subset
of `strconv.ParseInt`. -/
def Method.setFlagValue (m : Method) (name v : String) : Option (Except String Method) :=
  match m with
  | .cpu _fn f => if name = "cpuprofile" then some (.ok (.cpu v f)) else none
  | .mem fn r pr =>
    if name = "memprofile" then some (.ok (.mem v r pr))
    else if name = "memprofilerate" then
      some (match goAtoi v with
        | some n => .ok (.mem fn n pr)
        | none => .error ("invalid value " ++ v ++ " for flag -" ++ name))
    else none
  | .lookup n l _fn =>
    if name = n ++ "profile" then some (.ok (.lookup n l v)) else none
  | .block fn r =>
    if name = "blockprofile" then some (.ok (.block v r))
    else if name = "blockprofilerate" then
      some (match goAtoi v with
        | some k => .ok (.block fn k)
        | none => .error ("invalid value " ++ v ++ " for flag -" ++ name))
    else none
  | .mutex fn r =>
    if name = "mutexprofile" then some (.ok (.mutex v r))
    else if name = "mutexprofilefraction" then
      some (match goAtoi v with
        | some k => .ok (.mutex fn k)
        | none => .error ("invalid value " ++ v ++ " for flag -" ++ name))
    else none
  | .tracer _ f => if name = "trace" then some (.ok (.tracer v f)) else none

/-- Apply the flag `name=v` to the first method in the list declaring a
flag of that name; unknown names are the flag library's
"flag provided but not defined" fatal error. -/
def applyFlag : List Method → String → String → Except String (List Method)
  | [], name, _ => .error ("flag provided but not defined: -" ++ name)
  | m :: ms, name, v =>
    match m.setFlagValue name v with
    | some (.ok m') => .ok (m' :: ms)
    | some (.error e) => .error e
    | none => (applyFlag ms name v).map (m :: ·)

/-- Strip the leading minuses of one argument, yielding the flag's
name-and-value text.  `none` is the scan terminating: an argument shorter
than two characters (including the bare `-`), one not starting with `-`,
or the `--` terminator. -/
def argNameChars : List Char → Option (List Char)
  | '-' :: '-' :: [] => none
  | '-' :: '-' :: nm => some nm
  | '-' :: c :: nm => some (c :: nm)
  | _ => none

/-- The Go `flag` library's argument scan, restricted to the non-boolean
flags this package registers: parsing stops at the first non-flag
argument, at a bare `-`, or at `--`; `-name=value` sets the value in
place; `-name value` takes the value from the next argument; a flag
without a value and without a following argument is an error. -/
def parseArgs (ms : List Method) : List String → Except String (List Method)
  | [] => .ok ms
  | a :: rest =>
    match argNameChars a.data with
    | none => .ok ms
    | some nameChars =>
      if nameChars.head? = some '-' || nameChars.head? = some '=' then
        .error ("bad flag syntax: " ++ a)
      else
        let name : String := ⟨nameChars.takeWhile (· ≠ '=')⟩
        match nameChars.dropWhile (· ≠ '=') with
        | _eq :: valChars =>
          match applyFlag ms name ⟨valChars⟩ with
          | .ok ms' => parseArgs ms' rest
          | .error e => .error e
        | [] =>
          match rest with
          | v :: rest' =>
            match applyFlag ms name v with
            | .ok ms' => parseArgs ms' rest'
            | .error e => .error e
          | [] => .error ("flag needs an argument: -" ++ name)

/-! ## The session object (`Profile`, profile.go) -/

/-- A profiling session (profile.go).  The `noshutdownhook` flag and the
interrupt-watcher goroutine are not modelled (concurrency); the logger is
modelled by accumulating the formatted log lines. -/
structure Profile where
  methods : List Method
  envvar : String
  running : List Method
  log : List String
deriving DecidableEq, Repr

/-- `addmethod` (profile.go). -/
def Profile.addmethod (p : Profile) (m : Method) : Profile :=
  { p with methods := p.methods ++ [m] }

/-- `Configure`: apply functional options in order (profile.go). -/
def Profile.configure (p : Profile) (options : List (Profile → Profile)) : Profile :=
  options.foldl (fun p o => o p) p

/-- `New`: a fresh session with the given options applied (profile.go). -/
def Profile.new (options : List (Profile → Profile)) : Profile :=
  Profile.configure { methods := [], envvar := "", running := [], log := [] } options

/-- Option `CPUProfile` (methods.go): add a cpu method with default
filename "cpu.pprof". -/
def CPUProfile (p : Profile) : Profile := p.addmethod (.cpu "cpu.pprof" none)

/-- Option `MemProfile` (methods.go). -/
def MemProfile (p : Profile) : Profile := p.addmethod (.mem "mem.pprof" 0 0)

/-- Option `GoroutineProfile` (methods.go). -/
def GoroutineProfile (p : Profile) : Profile :=
  p.addmethod (.lookup "goroutine" "running goroutine" "goroutine.pprof")

/-- Option `ThreadcreationProfile` (methods.go). -/
def ThreadcreationProfile (p : Profile) : Profile :=
  p.addmethod (.lookup "threadcreate" "thread creation" "threadcreate.pprof")

/-- Option `BlockProfile` (methods.go). -/
def BlockProfile (p : Profile) : Profile := p.addmethod (.block "block.pprof" 1)

/-- Option `MutexProfile` (methods.go). -/
def MutexProfile (p : Profile) : Profile := p.addmethod (.mutex "mutex.pprof" 1)

/-- Option `TraceProfile` (methods.go). -/
def TraceProfile (p : Profile) : Profile := p.addmethod (.tracer "trace.out" none)

/-- Option `AllProfiles` (methods.go): all seven methods, in this order. -/
def AllProfiles (p : Profile) : Profile :=
  p.configure [CPUProfile, MemProfile, GoroutineProfile, ThreadcreationProfile,
    BlockProfile, MutexProfile, TraceProfile]

/-- Option `ConfigEnvVar` (profile.go). -/
def ConfigEnvVar (key : String) (p : Profile) : Profile := { p with envvar := key }

/-- `setdefaults` (profile.go): if no methods are configured, enable CPU
profiling only. -/
def Profile.setdefaults (p : Profile) : Profile :=
  if p.methods.length = 0 then p.configure [CPUProfile] else p

/-- `SetFlags` (profile.go): apply defaults, then register every method's
flags on the caller-supplied flag set, in insertion order.  The observable
effect of registration on method state is the field reset to the declared
flag defaults. -/
def Profile.SetFlags (p : Profile) : Profile :=
  let p1 := p.setdefaults
  { p1 with methods := p1.methods.map Method.setFlagsReset }

/-- The caller parsing its flag set after `SetFlags` (the `f.Parse(args)`
step of the package's tests and examples). -/
def Profile.parseFlags (p : Profile) (args : List String) : Except String Profile :=
  (parseArgs p.methods args).map (fun ms => { p with methods := ms })

/-- `strings.Split(s, sep)` for a one-character separator, over the
character list: splitting the empty string yields one empty entry, and a
string with `n` separators yields `n+1` entries. -/
def goSplitChars (sep : Char) : List Char → List (List Char)
  | [] => [[]]
  | c :: cs =>
    match goSplitChars sep cs with
    | [] => [[c]]
    | g :: gs => if c = sep then [] :: g :: gs else (c :: g) :: gs

/-- `strings.Split(s, ",")` as used by `config` (profile.go line 90). -/
def goSplit (s : String) (sep : Char) : List String :=
  (goSplitChars sep s.data).map (fun cs => ⟨cs⟩)

/-- The command-line tokens `config` builds from a configuration string
(profile.go lines 89-92): split on commas, prepend `-` to every entry. -/
def configArgs (cfg : String) : List String :=
  (goSplit cfg ',').map ("-" ++ ·)

/-- `config` (profile.go): convert the configuration string into
command-line tokens, register the session's flags on a fresh flag set,
and parse.  The flag set uses `flag.ExitOnError`, so a parse error
terminates the process: the caller treats `.error` as process exit. -/
def Profile.config (p : Profile) (cfg : String) : Except String Profile :=
  let args := configArgs cfg
  let p1 := p.SetFlags
  (parseArgs p1.methods args).map (fun ms => { p1 with methods := ms })

/-! ## Session start and stop (profile.go lines 111-164) -/

/-- The method loop of `Profile.Start` (profile.go lines 122-134): visit
the methods in order; skip a method whose `Enabled()` is false; start the
others, logging a warning and continuing on error, logging "started" and
appending the (started, hence mutated) method to the running set on
success.  The identical loop appears in `Runner.Start` (runner.go). -/
def startLoop (o : Oracle) : List Method → Runtime → Profile → Runtime × Profile
  | [], rt, p => (rt, p)
  | m :: ms, rt, p =>
    if !m.Enabled then startLoop o ms rt p
    else
      match m.start o rt with
      | (.error e, rt') =>
        startLoop o ms rt'
          { p with log := p.log ++ [m.nameOf ++ " profile: error starting: " ++ e] }
      | (.ok m', rt') =>
        startLoop o ms rt'
          { p with log := p.log ++ [m.nameOf ++ " profile: started"]
                   running := p.running ++ [m'] }

/-- Phases (a) and (b) of `Profile.Start` (profile.go lines 112-119):
apply defaults, then, when an environment variable key is configured,
configure from its value.  `env` is the process environment
(`os.Getenv`); an `.error` is the `flag.ExitOnError` process exit. -/
def Profile.startConfig (p : Profile) (env : String → String) : Except String Profile :=
  let p1 := p.setdefaults
  if p1.envvar ≠ "" then p1.config (env p1.envvar) else .ok p1

/-- `Profile.Start` (profile.go): defaults, environment configuration,
then the start loop over the methods.  `none` models the process exit the
`ExitOnError` flag set performs on a configuration error.  The shutdown
hook of phase (d) is concurrency and is not modelled. -/
def Profile.start (p : Profile) (o : Oracle) (env : String → String) (rt : Runtime) :
    Option (Runtime × Profile) :=
  match p.startConfig env with
  | .error _ => none
  | .ok p2 => some (startLoop o p2.methods rt p2)

/-- The loop of `Profile.Stop` (profile.go lines 154-161): call `Stop()`
on each running method in the order recorded, producing one log line per
method.  The identical loop appears in `Runner.Stop` (runner.go). -/
def stopLoop (o : Oracle) : List Method → Runtime → Runtime × List String
  | [], rt => (rt, [])
  | m :: ms, rt =>
    match m.stop o rt with
    | (.error e, rt1) =>
      let (rt2, ls) := stopLoop o ms rt1
      (rt2, (m.nameOf ++ " profile: error stopping: " ++ e) :: ls)
    | (.ok _, rt1) =>
      let (rt2, ls) := stopLoop o ms rt1
      (rt2, (m.nameOf ++ " profile: stopped") :: ls)

/-- `Profile.Stop` (profile.go lines 153-164): run the stop loop over the
running set, then clear it unconditionally.  The return type carries no
error value: `Stop()` itself cannot fail. -/
def Profile.stop (p : Profile) (o : Oracle) (rt : Runtime) : Runtime × Profile :=
  let (rt', ls) := stopLoop o p.running rt
  (rt', { p with log := p.log ++ ls, running := [] })

/-! ## Derived per-method views of the start/stop outcomes

In this model the success or failure of a method's `Start()`/`Stop()` is
determined by the oracle alone (never by the threaded runtime state), so
each has a closed-form description.  These views are *proved* to agree
with `Method.start`/`Method.stop`; the theorems about the session loops
are stated in terms of them. -/

/-- The error `Start()` returns, if any, as determined by the oracle. -/
def Method.startErrMsg (o : Oracle) : Method → Option String
  | .cpu fn _ =>
    if !o.createOk fn then some ("open " ++ fn ++ ": failed")
    else if !o.startCPUProfileOk then some "cpu profiling already in use"
    else none
  | .tracer fn _ =>
    if !o.createOk fn then some ("open " ++ fn ++ ": failed")
    else if !o.traceStartOk then some "tracing is already enabled"
    else none
  | _ => none

/-- Whether `Start()` returns nil, as determined by the oracle. -/
def Method.startOk (o : Oracle) (m : Method) : Bool :=
  (m.startErrMsg o).isNone

/-- The method value after a successful `Start()` (the in-place mutation
of the Go method object): `cpu`/`tracer` record their open handle, `mem`
records the prior global rate, the others are unchanged. -/
def Method.startedVal (rt : Runtime) : Method → Method
  | .cpu fn _ => .cpu fn (some fn)
  | .mem fn r _ => .mem fn r rt.memProfileRate
  | .tracer fn _ => .tracer fn (some fn)
  | m => m

/-- The error `Stop()` returns, if any, as determined by the oracle. -/
def Method.stopErrMsg (o : Oracle) : Method → Option String
  | .cpu _ f => if f.isNone then some "close of nil file" else none
  | .mem fn _ _ => wpErr o "allocs" fn
  | .lookup n _ fn => wpErr o n fn
  | .block fn _ => wpErr o "block" fn
  | .mutex fn _ => wpErr o "mutex" fn
  | .tracer _ f => if f.isNone then some "close of nil file" else none
where
  /-- The error of a `writeprofile` call, if any. -/
  wpErr (o : Oracle) (name fn : String) : Option String :=
    if !pprofLookupOk name then some ("unknown profile " ++ name)
    else if !o.createOk fn then some ("open " ++ fn ++ ": failed")
    else if !o.writeToOk name fn then some ("write " ++ fn ++ ": failed")
    else none

/-- The external events of a `writeprofile` call. -/
def wpEvents (o : Oracle) (name fn : String) : List Event :=
  if !pprofLookupOk name then []
  else if !o.createOk fn then []
  else if o.writeToOk name fn then [.create fn, .write name fn, .close fn]
  else [.create fn, .close fn]

/-- The external events of a method's `Stop()`. -/
def Method.stopEvents (o : Oracle) : Method → List Event
  | .cpu _ f => match f with | some h => [.close h] | none => []
  | .mem fn _ _ => .gc :: wpEvents o "allocs" fn
  | .lookup n _ fn => wpEvents o n fn
  | .block fn _ => wpEvents o "block" fn
  | .mutex fn _ => wpEvents o "mutex" fn
  | .tracer _ f => match f with | some h => [.close h] | none => []

/-- The log line `Profile.Start` produces for a method, if any: `none`
for a skipped (disabled) method, the warning for a failed start, the
informational line for a successful one. -/
def startLogLine (o : Oracle) (m : Method) : Option String :=
  if !m.Enabled then none
  else some (match m.startErrMsg o with
    | some e => m.nameOf ++ " profile: error starting: " ++ e
    | none => m.nameOf ++ " profile: started")

/-- The log line `Profile.Stop` produces for a running method. -/
def stopLogLine (o : Oracle) (m : Method) : String :=
  match m.stopErrMsg o with
  | some e => m.nameOf ++ " profile: error stopping: " ++ e
  | none => m.nameOf ++ " profile: stopped"

/-! ## Lemmas connecting the per-method operations to their views -/

lemma Method.startedVal_ident (rt : Runtime) (m : Method) :
    (m.startedVal rt).ident = m.ident := by
  cases m <;> rfl

lemma Method.start_fst (o : Oracle) (rt : Runtime) (m : Method) :
    (m.start o rt).1 =
      match m.startErrMsg o with
      | some e => Except.error e
      | none => Except.ok (m.startedVal rt) := by
  cases m <;> simp only [Method.start, Method.startErrMsg, Method.startedVal]
  case cpu fn f =>
    by_cases h1 : o.createOk fn <;> by_cases h2 : o.startCPUProfileOk <;> simp [h1, h2]
  case mem fn r pr =>
    by_cases h : r > 0 <;> simp [h]
  case tracer fn f =>
    by_cases h1 : o.createOk fn <;> by_cases h2 : o.traceStartOk <;> simp [h1, h2]

/-! ## C1: the start loop -/

/-- The start loop's running-set invariant: the running set grows by
exactly the enabled methods whose start succeeded, in order (up to the
in-place mutation `startedVal`, erased by `Method.ident`). -/
lemma startLoop_running (o : Oracle) (ms : List Method) (rt : Runtime) (p : Profile) :
    (startLoop o ms rt p).2.running.map Method.ident =
      p.running.map Method.ident ++
        (ms.filter (fun m => m.Enabled && m.startOk o)).map Method.ident := by
  induction ms generalizing rt p with
  | nil => simp [startLoop]
  | cons m ms ih =>
    by_cases hE : m.Enabled
    · cases hErr : m.startErrMsg o with
      | some e =>
        have hs : (m.start o rt).1 = Except.error e := by rw [Method.start_fst, hErr]
        rcases hS : m.start o rt with ⟨res, rt'⟩
        rw [hS] at hs; simp at hs; subst hs
        have hOk : m.startOk o = false := by simp [Method.startOk, hErr]
        simp [startLoop, hE, hS, hOk, ih]
      | none =>
        have hs : (m.start o rt).1 = Except.ok (m.startedVal rt) := by
          rw [Method.start_fst, hErr]
        rcases hS : m.start o rt with ⟨res, rt'⟩
        rw [hS] at hs; simp at hs; subst hs
        have hOk : m.startOk o = true := by simp [Method.startOk, hErr]
        simp [startLoop, hE, hS, hOk, ih, Method.startedVal_ident]
    · have hE' : m.Enabled = false := by simpa using hE
      simp [startLoop, hE', ih]

/-- The start loop's log invariant: one line per enabled method, in
insertion order, warning on failure and informational on success. -/
lemma startLoop_log (o : Oracle) (ms : List Method) (rt : Runtime) (p : Profile) :
    (startLoop o ms rt p).2.log = p.log ++ ms.filterMap (startLogLine o) := by
  induction ms generalizing rt p with
  | nil => simp [startLoop]
  | cons m ms ih =>
    by_cases hE : m.Enabled
    · cases hErr : m.startErrMsg o with
      | some e =>
        have hs : (m.start o rt).1 = Except.error e := by rw [Method.start_fst, hErr]
        rcases hS : m.start o rt with ⟨res, rt'⟩
        rw [hS] at hs; simp at hs; subst hs
        simp [startLoop, hE, hS, ih, startLogLine, hErr]
      | none =>
        have hs : (m.start o rt).1 = Except.ok (m.startedVal rt) := by
          rw [Method.start_fst, hErr]
        rcases hS : m.start o rt with ⟨res, rt'⟩
        rw [hS] at hs; simp at hs; subst hs
        simp [startLoop, hE, hS, ih, startLogLine, hErr]
    · have hE' : m.Enabled = false := by simpa using hE
      simp [startLoop, hE', ih, startLogLine]

/-- The start loop never changes the configured method list or the
environment key. -/
lemma startLoop_methods_envvar (o : Oracle) (ms : List Method) (rt : Runtime) (p : Profile) :
    (startLoop o ms rt p).2.methods = p.methods
    ∧ (startLoop o ms rt p).2.envvar = p.envvar := by
  induction ms generalizing rt p with
  | nil => simp [startLoop]
  | cons m ms ih =>
    by_cases hE : m.Enabled
    · rcases hS : m.start o rt with ⟨res, rt'⟩
      cases res <;> simp [startLoop, hE, hS, ih]
    · have hE' : m.Enabled = false := by simpa using hE
      simp [startLoop, hE', ih]

/-- An oracle in which the runtime refuses to start CPU sampling (for
example, CPU profiling is already in use) while everything else
succeeds. -/
def oracleCPUBusy : Oracle :=
  { createOk := fun _ => true
    startCPUProfileOk := false
    traceStartOk := true
    writeToOk := fun _ _ => true }

/-- **C1.** For every session and every list of added methods,
`Profile.Start()` visits the methods in insertion order, skips each
method whose `Enabled()` is false, and for each enabled method calls its
`Start()`: on error it logs a warning naming the category and continues
to the next method, and on success it appends the method to the running
set; hence after `Start()` the running set is exactly the enabled methods
whose `Start()` returned nil, in insertion order.  Here `q` is the
session after the defaulting/environment configuration phases, the log
characterization shows the per-method warning (naming the category) or
"started" line in insertion order, and the running set is the filter of
the methods by `Enabled() ∧ Start() = nil`. -/
theorem claim1_start_visits_in_order (o : Oracle) (env : String → String) (rt : Runtime)
    (p q : Profile) (h : p.startConfig env = .ok q) :
    p.start o env rt = some (startLoop o q.methods rt q)
    ∧ ((startLoop o q.methods rt q).2.running.map Method.ident =
        q.running.map Method.ident ++
          (q.methods.filter (fun m => m.Enabled && m.startOk o)).map Method.ident)
    ∧ ((startLoop o q.methods rt q).2.log =
        q.log ++ q.methods.filterMap (startLogLine o)) := by
  refine ⟨?_, startLoop_running o q.methods rt q, startLoop_log o q.methods rt q⟩
  simp [Profile.start, h]

/-- Witness for C1: a session with cpu and mem methods under an oracle in
which the CPU profiler refuses to start.  The cpu failure is logged with
its category name and does not prevent mem from starting: the running set
is exactly the mem method. -/
theorem claim1_start_visits_in_order_witness :
    ((startLoop oracleCPUBusy (Profile.new [CPUProfile, MemProfile]).methods Runtime.init
        (Profile.new [CPUProfile, MemProfile])).2.running.map Method.ident
      = [("mem", "mem.pprof", 0)])
    ∧ ((startLoop oracleCPUBusy (Profile.new [CPUProfile, MemProfile]).methods Runtime.init
        (Profile.new [CPUProfile, MemProfile])).2.log
      = ["cpu profile: error starting: cpu profiling already in use",
         "mem profile: started"]) := by
  have h := claim1_start_visits_in_order oracleCPUBusy (fun _ => "") Runtime.init
    (Profile.new [CPUProfile, MemProfile]) (Profile.new [CPUProfile, MemProfile]) rfl
  exact ⟨h.2.1.trans (by decide), h.2.2.trans (by decide)⟩

/-! ## C2: the stop loop -/

lemma Method.stop_fst (o : Oracle) (rt : Runtime) (m : Method) :
    (m.stop o rt).1 =
      match m.stopErrMsg o with
      | some e => Except.error e
      | none => Except.ok () := by
  cases m <;>
    simp only [Method.stop, Method.stopErrMsg, Method.stopErrMsg.wpErr, writeprofile]
  case cpu fn f => cases f <;> simp
  case mem fn r pr =>
    by_cases h1 : pprofLookupOk "allocs" <;>
      by_cases h2 : o.createOk fn <;>
      by_cases h3 : o.writeToOk "allocs" fn <;>
      simp [h1, h2, h3]
  case lookup n l fn =>
    by_cases h1 : pprofLookupOk n <;>
      by_cases h2 : o.createOk fn <;>
      by_cases h3 : o.writeToOk n fn <;>
      simp [h1, h2, h3]
  case block fn r =>
    by_cases h1 : pprofLookupOk "block" <;>
      by_cases h2 : o.createOk fn <;>
      by_cases h3 : o.writeToOk "block" fn <;>
      simp [h1, h2, h3]
  case mutex fn r =>
    by_cases h1 : pprofLookupOk "mutex" <;>
      by_cases h2 : o.createOk fn <;>
      by_cases h3 : o.writeToOk "mutex" fn <;>
      simp [h1, h2, h3]
  case tracer fn f => cases f <;> simp

lemma Method.stop_events (o : Oracle) (rt : Runtime) (m : Method) :
    (m.stop o rt).2.events = rt.events ++ m.stopEvents o := by
  cases m <;>
    simp only [Method.stop, Method.stopEvents, writeprofile, wpEvents,
      Runtime.createFile, Runtime.closeFile, Runtime.addEvent]
  case cpu fn f => cases f <;> simp [Runtime.closeFile]
  case mem fn r pr =>
    by_cases h1 : pprofLookupOk "allocs" <;>
      by_cases h2 : o.createOk fn <;>
      by_cases h3 : o.writeToOk "allocs" fn <;>
      simp [h1, h2, h3]
  case lookup n l fn =>
    by_cases h1 : pprofLookupOk n <;>
      by_cases h2 : o.createOk fn <;>
      by_cases h3 : o.writeToOk n fn <;>
      simp [h1, h2, h3]
  case block fn r =>
    by_cases h1 : pprofLookupOk "block" <;>
      by_cases h2 : o.createOk fn <;>
      by_cases h3 : o.writeToOk "block" fn <;>
      simp [h1, h2, h3]
  case mutex fn r =>
    by_cases h1 : pprofLookupOk "mutex" <;>
      by_cases h2 : o.createOk fn <;>
      by_cases h3 : o.writeToOk "mutex" fn <;>
      simp [h1, h2, h3]
  case tracer fn f => cases f <;> simp [Runtime.closeFile]

/-- The stop loop's invariant: one log line per running method in
recorded order, and the external effects of each method's `Stop()` occur
in the same order. -/
lemma stopLoop_spec (o : Oracle) (ms : List Method) (rt : Runtime) :
    ((stopLoop o ms rt).2 = ms.map (stopLogLine o))
    ∧ ((stopLoop o ms rt).1.events = rt.events ++ (ms.map (Method.stopEvents o)).flatten) := by
  induction ms generalizing rt with
  | nil => simp [stopLoop]
  | cons m ms ih =>
    have hf := Method.stop_fst o rt m
    have he := Method.stop_events o rt m
    rcases hS : m.stop o rt with ⟨res, rt1⟩
    rw [hS] at hf he
    simp only [] at he
    cases hErr : m.stopErrMsg o with
    | some e =>
      rw [hErr] at hf; simp at hf; subst hf
      constructor
      · simp [stopLoop, hS, (ih rt1).1, stopLogLine, hErr]
      · simp [stopLoop, hS, (ih rt1).2, he, List.append_assoc]
    | none =>
      rw [hErr] at hf; simp at hf; subst hf
      constructor
      · simp [stopLoop, hS, (ih rt1).1, stopLogLine, hErr]
      · simp [stopLoop, hS, (ih rt1).2, he, List.append_assoc]

/-- **C2.** For every session in any state, `Profile.Stop()` iterates the
running set in the order the methods were recorded as started, calls each
method's `Stop()` (their external effects occur per method, in that
order), only logs any per-method stop error — the log gains exactly one
"stopped" or "error stopping" line per running method — and afterwards
the running set is empty unconditionally, even when some `Stop()` calls
failed (the oracle is arbitrary).  `Profile.stop` returns no error value:
`Stop()` itself cannot fail. -/
theorem claim2_stop_clears_running (o : Oracle) (rt : Runtime) (p : Profile) :
    ((p.stop o rt).2.running = [])
    ∧ ((p.stop o rt).2.log = p.log ++ p.running.map (stopLogLine o))
    ∧ ((p.stop o rt).1.events = rt.events ++ (p.running.map (Method.stopEvents o)).flatten) := by
  have h := stopLoop_spec o p.running rt
  rcases hS : stopLoop o p.running rt with ⟨rt', ls⟩
  rw [hS] at h
  simp only [] at h
  simp [Profile.stop, hS, h.1, h.2]

/-! ## C3: lazy defaulting -/

/-- **C3.** For every session, if the method list is empty when
`SetFlags` or `Start` is first called, exactly one method (CPU, with its
constructor default) is added at that moment; a non-empty list is left
unchanged; and because defaulting is keyed solely off the list being
empty, `setdefaults` is idempotent, `Start`'s defaulting step after
`SetFlags` is the identity, and a second `SetFlags` adds no method.
(`Profile.SetFlags` and `Profile.startConfig` — the first phase of
`Profile.start` — both begin with `Profile.setdefaults` by definition.) -/
lemma Profile.setdefaults_of_nonempty (q : Profile) (h : q.methods.length ≠ 0) :
    q.setdefaults = q := by
  simp [Profile.setdefaults, h]

lemma Profile.SetFlags_methods (q : Profile) :
    q.SetFlags.methods = q.setdefaults.methods.map Method.setFlagsReset := rfl

theorem claim3_lazy_cpu_default (p : Profile) :
    (p.setdefaults.methods =
      if p.methods.length = 0 then [Method.cpu "cpu.pprof" none] else p.methods)
    ∧ (p.setdefaults.setdefaults = p.setdefaults)
    ∧ (p.SetFlags.setdefaults = p.SetFlags)
    ∧ (p.SetFlags.SetFlags.methods.length = p.SetFlags.methods.length) := by
  have h1 : p.setdefaults.methods =
      if p.methods.length = 0 then [Method.cpu "cpu.pprof" none] else p.methods := by
    by_cases h : p.methods.length = 0
    · have : p.methods = [] := List.length_eq_zero.mp h
      simp [Profile.setdefaults, h, Profile.configure, CPUProfile, Profile.addmethod, this]
    · simp [Profile.setdefaults, h]
  have hne : p.setdefaults.methods.length ≠ 0 := by
    rw [h1]
    by_cases h : p.methods.length = 0 <;> simp [h]
  have hsf : p.SetFlags.methods.length ≠ 0 := by
    rw [Profile.SetFlags_methods, List.length_map]
    exact hne
  have h3 : p.SetFlags.setdefaults = p.SetFlags :=
    Profile.setdefaults_of_nonempty _ hsf
  refine ⟨h1, Profile.setdefaults_of_nonempty _ hne, h3, ?_⟩
  rw [Profile.SetFlags_methods p.SetFlags, h3, List.length_map]

/-! ## C4: empty environment configuration -/

/-- The session of the regression test `TestEnvConfigurationEmpty`: all
seven categories pre-added via options, configured from the environment
variable `PROFILE`. -/
def profileAllEnv : Profile := Profile.new [AllProfiles, ConfigEnvVar "PROFILE"]

/-- The state `profileAllEnv` reaches after the configuration phases of
`Start()` with an empty environment value: flag registration has reset
every filename to the empty flag default, so no method is enabled. -/
def profileAllEnvDisabled : Profile :=
  { methods := [.cpu "" none, .mem "" 0 0,
      .lookup "goroutine" "running goroutine" "",
      .lookup "threadcreate" "thread creation" "",
      .block "" 1, .mutex "" 1, .tracer "" none]
    envvar := "PROFILE"
    running := []
    log := [] }

/-- Counterexample to C4 as stated: the configuration step on the empty
string does not yield zero tokens.  `strings.Split("", ",")` yields one
empty entry, so `config` builds the single token `"-"` (which the flag
parser then treats as a terminator, setting nothing). -/
theorem claim4_counterexample : configArgs "" = ["-"] ∧ configArgs "" ≠ [] := by
  decide

/-- **C4 (amended).** For a session configured with an environment
variable key whose value is unset or empty (`os.Getenv` returns `""` in
both cases), the configuration step yields the single terminator token
`"-"` and enables no methods: every method's filename is empty after the
env-config parse, so `Start()` starts nothing and a subsequent `Stop()`
touches nothing — zero output files are produced even though all seven
categories were pre-added via options, under every oracle and from every
runtime state. -/
theorem claim4_empty_env_no_output (o : Oracle) (rt : Runtime) :
    (profileAllEnv.start o (fun _ => "") rt = some (rt, profileAllEnvDisabled))
    ∧ (profileAllEnvDisabled.methods.map Method.filename = ["", "", "", "", "", "", ""])
    ∧ (profileAllEnvDisabled.methods.all (fun m => !m.Enabled) = true)
    ∧ (profileAllEnvDisabled.stop o rt = (rt, profileAllEnvDisabled)) := by
  exact ⟨rfl, rfl, rfl, rfl⟩

/-! ## C5: the `Enabled()` predicate -/

/-- The rate-gated methods according to claim C5's wording: mem, block
and mutex ("the rate-gated methods carrying an integer sampling
rate/fraction (mem, block, mutex)"). -/
def rateGatedClaim : Method → Bool
  | .mem _ _ _ => true
  | .block _ _ => true
  | .mutex _ _ => true
  | _ => false

/-- The enabling predicate exactly as claim C5 states it: filename
non-empty, and a positive rate for mem, block and mutex. -/
def enabledClaim (m : Method) : Bool :=
  if m.filename = "" then false
  else if rateGatedClaim m then decide (m.rateOf > 0) else true

/-- The rate-gated methods as the code implements them: only block and
mutex consult their rate in `Enabled()`; mem's `Enabled()` ignores its
rate (`memprofilerate` 0 means "use the runtime default", not
"disabled"). -/
def rateGated : Method → Bool
  | .block _ _ => true
  | .mutex _ _ => true
  | _ => false

/-- The enabling predicate following the spec's invariant wording, with
the rate gate restricted to block and mutex. -/
def enabledSpec (m : Method) : Bool :=
  if m.filename = "" then false
  else if rateGated m then decide (m.rateOf > 0) else true

/-- Counterexample to C5 as stated: the mem method produced by the
`MemProfile` option — filename "mem.pprof", rate 0 — is enabled even
though its rate is not positive, so `Enabled()` is not the claimed
conjunction for mem. -/
theorem claim5_counterexample :
    (Method.mem "mem.pprof" 0 0).Enabled = true
    ∧ enabledClaim (Method.mem "mem.pprof" 0 0) = false := by
  decide

/-- **C5 (amended).** For every method variant, `Enabled()` is a pure
predicate over the method's configuration state (in this embedding a
total function of the method value alone, touching no runtime state) that
returns true iff the configured output filename is non-empty and, for the
rate-gated methods block and mutex, the rate is positive; mem's rate does
not participate in `Enabled()`. -/
theorem claim5_enabled_iff (m : Method) : m.Enabled = enabledSpec m := by
  have hbne : ∀ s : String, (s != "") = !decide (s = "") := by
    intro s
    by_cases h : s = "" <;> simp [h]
  cases m <;>
    simp [Method.Enabled, enabledSpec, rateGated, Method.filename, Method.rateOf, hbne]

/-! ## C6: no dangling file handle on `Start()` failure -/

/-- The `CPU` struct of the older revision `method.go` (lines 34-37). -/
structure CPUGo where
  filename : String
  f : Option String
deriving DecidableEq, Repr

/-- `CPU.Start` translated from method.go lines 51-66: create the file,
assign it to `c.f`, then start the profiler — and on a profiler error
return *without closing the file*.  (The current revision, embedded as
`Method.start` for the `cpu` variant, closes the file on that path.)
The triple returned is (error, mutated receiver, runtime). -/
def CPUGo.start (o : Oracle) (rt : Runtime) (c : CPUGo) :
    Option String × CPUGo × Runtime :=
  if o.createOk c.filename then
    let rt1 := rt.createFile c.filename
    let c1 : CPUGo := { c with f := some c.filename }
    if o.startCPUProfileOk then (none, c1, rt1)
    else (some "cpu profiling already in use", c1, rt1)
  else (some ("open " ++ c.filename ++ ": failed"), c, rt)

/-- An oracle in which the execution tracer refuses to start while
everything else succeeds. -/
def oracleTraceBusy : Oracle :=
  { createOk := fun _ => true
    startCPUProfileOk := true
    traceStartOk := false
    writeToOk := fun _ _ => true }

/-- An oracle in which no file can be created. -/
def oracleNoCreate : Oracle :=
  { createOk := fun _ => false
    startCPUProfileOk := true
    traceStartOk := true
    writeToOk := fun _ _ => true }

/-- **C6 (code bug in method.go).** The current revision's file-opening
methods satisfy the claim: when `cpu.Start` or `tracer.Start` of
methods.go (part_004) fails — whether at file creation or at profiler
start — no file is left open.  But `CPU.Start` of the older revision
method.go violates it: at the failing input "os.Create succeeds,
pprof.StartCPUProfile fails" it returns the error with cpu.pprof still
open. -/
theorem claim6_failed_start_leaves_no_open_file :
    ((CPUGo.start oracleCPUBusy Runtime.init ⟨"cpu.pprof", none⟩).1
      = some "cpu profiling already in use")
    ∧ ((CPUGo.start oracleCPUBusy Runtime.init ⟨"cpu.pprof", none⟩).2.2.openFiles
      = ["cpu.pprof"])
    ∧ ((Method.start oracleCPUBusy Runtime.init (.cpu "cpu.pprof" none)).1
      = .error "cpu profiling already in use")
    ∧ ((Method.start oracleCPUBusy Runtime.init (.cpu "cpu.pprof" none)).2.openFiles
      = [])
    ∧ ((Method.start oracleNoCreate Runtime.init (.cpu "cpu.pprof" none)).1
      = .error "open cpu.pprof: failed")
    ∧ ((Method.start oracleNoCreate Runtime.init (.cpu "cpu.pprof" none)).2.openFiles
      = [])
    ∧ ((Method.start oracleTraceBusy Runtime.init (.tracer "trace.out" none)).1
      = .error "tracing is already enabled")
    ∧ ((Method.start oracleTraceBusy Runtime.init (.tracer "trace.out" none)).2.openFiles
      = []) := by
  exact ⟨rfl, rfl, rfl, rfl, rfl, rfl, rfl, rfl⟩

/-! ## C7: environment configuration refines flag configuration -/

/-- A session with all seven categories pre-added and no environment
key (the flag-configured side of the comparison). -/
def profileAll : Profile := Profile.new [AllProfiles]

/-- The method state both configuration routes are expected to reach for
`cpuprofile=cpu.out,memprofile=mem.out`: cpu and mem configured, all
other filenames reset to the disabled default. -/
def profileAllCpuMem : Profile :=
  { methods := [.cpu "cpu.out" none, .mem "mem.out" 0 0,
      .lookup "goroutine" "running goroutine" "",
      .lookup "threadcreate" "thread creation" "",
      .block "" 1, .mutex "" 1, .tracer "" none]
    envvar := ""
    running := []
    log := [] }

/-- Run a session from a fresh runtime and working directory —
`Start()` followed by `Stop()` — and list the files produced, as the
package's tests do. -/
def runSession (p : Profile) (o : Oracle) (env : String → String) :
    Option (List String) :=
  (p.start o env Runtime.init).map (fun rq => ((rq.2.stop o rq.1).1.files))

/-- **C7.** Every configuration string entry `k=v` is translated to the
command-line token `-k=v` and parsed against the same flag surface the
methods register, so environment configuration equals flag
configuration: (i) `config` is exactly `SetFlags` followed by a parse of
the translated tokens, for every session and string; (ii) on the spec's
scenario the token translation, the resulting method state (exactly
cpu.out and mem.out enabled), and the files written by Start-then-Stop
coincide between the environment route and the flag route. -/
theorem claim7_env_config_refines_flags :
    (∀ (p : Profile) (cfg : String),
      p.config cfg = p.SetFlags.parseFlags (configArgs cfg))
    ∧ (configArgs "cpuprofile=cpu.out,memprofile=mem.out"
        = ["-cpuprofile=cpu.out", "-memprofile=mem.out"])
    ∧ (profileAll.config "cpuprofile=cpu.out,memprofile=mem.out"
        = .ok profileAllCpuMem)
    ∧ (profileAll.SetFlags.parseFlags ["-cpuprofile=cpu.out", "-memprofile=mem.out"]
        = .ok profileAllCpuMem)
    ∧ ((profileAllCpuMem.methods.filter Method.Enabled).map Method.filename
        = ["cpu.out", "mem.out"])
    ∧ (runSession (profileAllEnv)
        Oracle.allOk (fun _ => "cpuprofile=cpu.out,memprofile=mem.out")
        = some ["cpu.out", "mem.out"])
    ∧ (runSession profileAllCpuMem Oracle.allOk (fun _ => "")
        = some ["cpu.out", "mem.out"]) := by
  refine ⟨fun p cfg => rfl, rfl, rfl, rfl, rfl, rfl, rfl⟩

/-! ## C8: mem saves and restores the global allocation-sampling rate -/

lemma writeprofile_events (o : Oracle) (rt : Runtime) (name fn : String) :
    (writeprofile o rt name fn).2.events = rt.events ++ wpEvents o name fn := by
  by_cases h1 : pprofLookupOk name <;>
    by_cases h2 : o.createOk fn <;>
    by_cases h3 : o.writeToOk name fn <;>
    simp [writeprofile, wpEvents, Runtime.createFile, Runtime.closeFile,
      Runtime.addEvent, h1, h2, h3]

/-- **C8.** For the mem method with any configured rate: `Start()` saves
the current global allocation-sampling rate into `prevrate` and installs
the configured rate as the new global value only when it is positive;
`Stop()` forces a garbage-collection pass, serializes the "allocs"
category to the configured file, and sets the global rate back to
`prevrate` — under every oracle, so after a Start-then-Stop pair the
global rate equals its pre-Start value even when the serialization step
failed (the second conjunct holds for every oracle, including ones in
which file creation or the write fails, and for the `prevrate` recorded
by the first conjunct in particular). -/
theorem claim8_mem_rate_roundtrip (o : Oracle) (rt rt2 : Runtime)
    (fn : String) (rate pr : Int) :
    (Method.start o rt (.mem fn rate pr)
      = (.ok (.mem fn rate rt.memProfileRate),
         if rate > 0 then { rt with memProfileRate := rate } else rt))
    ∧ ((Method.stop o rt2 (.mem fn rate pr)).2.memProfileRate = pr)
    ∧ ((Method.stop o rt2 (.mem fn rate pr)).2.events
        = rt2.events ++ .gc :: wpEvents o "allocs" fn) := by
  refine ⟨?_, ?_, ?_⟩
  · by_cases h : rate > 0 <;> simp [Method.start, h]
  · simp only [Method.stop]
  · simp only [Method.stop]
    have he := writeprofile_events o (rt2.addEvent .gc) "allocs" fn
    rcases hW : writeprofile o (rt2.addEvent .gc) "allocs" fn with ⟨err, rt'⟩
    rw [hW] at he
    simp only [] at he
    simp [hW, he, Runtime.addEvent, List.append_assoc]

/-! ## C9: flags are declared on the caller-supplied flag set -/

/-- The configuration fields of the `Mem` struct of the older revision
method.go (lines 88-93). -/
structure MemGo where
  filename : String
  rate : Int
deriving DecidableEq, Repr

/-- The two flag-registration surfaces in play: the caller-supplied
`*flag.FlagSet` and the package-global `flag.CommandLine`, each as the
list of flag names declared on it. -/
structure FlagSets where
  supplied : List String
  commandLine : List String
deriving DecidableEq, Repr

/-- `Mem.SetFlags` translated from method.go lines 97-105: the body calls
the *package-level* `flag.StringVar` / `flag.IntVar`, which declare
"memprofile" and "memprofilerate" on the global `flag.CommandLine` — not
on the caller-supplied flag set `f`, which the body never uses.
Registration still resets the bound fields to the declared defaults. -/
def MemGo.SetFlags (m : MemGo) (fs : FlagSets) : MemGo × FlagSets :=
  ({ m with filename := "", rate := 0 },
   { fs with commandLine := fs.commandLine ++ ["memprofile", "memprofilerate"] })

/-- Whether a flag set defines the given flag name; parsing `-name=...`
against a set not defining `name` is the fatal
"flag provided but not defined" error. -/
def flagDefined (names : List String) (name : String) : Bool :=
  name ∈ names

/-- **C9 (code bug in method.go).** After `Mem.SetFlags` of method.go on
a fresh caller-supplied flag set, the supplied set defines no flag at all
while the global `CommandLine` set gained "memprofile" and
"memprofilerate"; the method's fields were still reset to the flag
defaults, so parsing arguments against the supplied set cannot set the
filename ("flag provided but not defined").  By contrast, in the current
revision (methods.go) the flag is bound to the method through the
supplied surface: applying `memprofile=mem.out` to a registered mem
method mutates its filename. -/
theorem claim9_flags_on_supplied_flagset :
    ((MemGo.SetFlags ⟨"mem.pprof", 0⟩ ⟨[], []⟩).2.supplied = [])
    ∧ ((MemGo.SetFlags ⟨"mem.pprof", 0⟩ ⟨[], []⟩).2.commandLine
        = ["memprofile", "memprofilerate"])
    ∧ ((MemGo.SetFlags ⟨"mem.pprof", 0⟩ ⟨[], []⟩).1 = ⟨"", 0⟩)
    ∧ (flagDefined (MemGo.SetFlags ⟨"mem.pprof", 0⟩ ⟨[], []⟩).2.supplied "memprofile"
        = false)
    ∧ (flagDefined (MemGo.SetFlags ⟨"mem.pprof", 0⟩ ⟨[], []⟩).2.commandLine "memprofile"
        = true)
    ∧ (applyFlag [Method.mem "" 0 0] "memprofile" "mem.out"
        = .ok [Method.mem "mem.out" 0 0]) := by
  exact ⟨rfl, rfl, rfl, by decide, by decide, rfl⟩

/-! ## C10: the default CPU method is live without `SetFlags` -/

/-- **C10.** If a session is started with no options and without
`SetFlags` ever being called, the lazily-added default CPU method carries
the constructor default filename "cpu.pprof", which is non-empty, so
`Enabled()` is true, the CPU method is the running set, and
Start-then-Stop actually writes cpu.pprof.  The "no flags parsed means no
output" behaviour holds only when `SetFlags` was called: registration
rebinds the filename to the flag default "" and the same Start-then-Stop
then produces zero files. -/
theorem claim10_default_cpu_runs_without_setflags :
    ((Profile.new []).setdefaults.methods = [Method.cpu "cpu.pprof" none])
    ∧ ((Method.cpu "cpu.pprof" none).Enabled = true)
    ∧ (((Profile.new []).start Oracle.allOk (fun _ => "") Runtime.init).map
        (fun rq => rq.2.running) = some [Method.cpu "cpu.pprof" (some "cpu.pprof")])
    ∧ (runSession (Profile.new []) Oracle.allOk (fun _ => "") = some ["cpu.pprof"])
    ∧ ((Profile.new []).SetFlags.methods = [Method.cpu "" none])
    ∧ ((Method.cpu "" none).Enabled = false)
    ∧ (runSession (Profile.new []).SetFlags Oracle.allOk (fun _ => "") = some []) := by
  exact ⟨rfl, rfl, rfl, rfl, rfl, rfl, rfl⟩

end GoProfile
